import Mathlib

/-!
Shallow embedding of fastapi_crudrouter/core/_utils.py, the Pydantic v2
compatibility shim of fastapi-crudrouter.  The file has four stateless
utility functions: get_pk_type, schema_factory,
create_query_validation_exception and pagination_factory (whose inner
function is pagination).  Python machine-level details irrelevant to the
claims (the web framework, the dependency-injection wrapper Depends) are
not modelled; everything the four functions compute is.
-/

/-- A Python type reference, as stored in a field annotation of a schema
descriptor.  The claims only compare type references for identity, so an
opaque enumeration with a catch-all constructor suffices. -/
inductive PyType where
  | int
  | str
  | bool
  | float
  | custom (tyname : String)
deriving DecidableEq

/-- Lookup in a Python dict represented as an association list
(first binding wins; the data-model invariant says keys are unique). -/
def dict_lookup (k : String) : List (String × α) → Option α
  | [] => none
  | (k2, v) :: rest => if k = k2 then some v else dict_lookup k rest

/-- A schema descriptor as _utils.py introspects it: the class name
(Python attribute with double underscores around the word name), an
optional Pydantic-v2 field-metadata mapping (model_fields, absent when
hasattr is false; each field info reduced to its annotation type), an
optional Pydantic-v1 field mapping (double-underscore fields, each entry
reduced to its name and its type attribute), and the mapping returned by
get_type_hints. -/
structure Schema where
  name : String
  model_fields : Option (List (String × PyType))
  legacy_fields : Option (List (String × PyType))
  type_hints : List (String × PyType)
deriving DecidableEq

/-- get_pk_type from _utils.py.  The Python code takes model_fields when
the attribute exists, else the empty dict; if that dict is truthy
(nonempty) and contains pk_field it returns the field annotation;
otherwise it falls back to get_type_hints, and finally defaults to int.
It is total: no error is ever raised. -/
def get_pk_type (schema : Schema) (pk_field : String) : PyType :=
  let model_fields := schema.model_fields.getD []
  if model_fields ≠ [] ∧ (dict_lookup pk_field model_fields).isSome then
    (dict_lookup pk_field model_fields).getD PyType.int
  else
    match dict_lookup pk_field schema.type_hints with
    | some t => t
    | none => PyType.int

/-- A field specification as handed to create_model: the annotation type
together with whether the field is required (the Python ellipsis default
means required, i.e. no default value). -/
structure FieldSpec where
  ann : PyType
  required : Bool
deriving DecidableEq

/-- The schema descriptor produced by create_model: a class name and the
field mapping. -/
structure CreatedSchema where
  name : String
  fields : List (String × FieldSpec)
deriving DecidableEq

/-- The dict comprehension of schema_factory: keep every field whose
name differs from the primary-key name, pairing its annotation with the
required marker (the Python ellipsis). -/
def create_fields (pk_field_name : String) :
    List (String × PyType) → List (String × FieldSpec)
  | [] => []
  | (fname, t) :: rest =>
      if fname ≠ pk_field_name then
        (fname, { ann := t, required := true }) ::
          create_fields pk_field_name rest
      else
        create_fields pk_field_name rest

/-- schema_factory from _utils.py.  It builds the field dict from
model_fields when that attribute exists (Pydantic v2), else from the
v1 field mapping when that exists, else leaves it empty; the
primary-key field is excluded and every kept field is required.  The new
class is named by appending the suffix to the original class name.  The
two create_model calling conventions tried by the Python code construct
the same model, so construction is modelled as a single step. -/
def schema_factory (schema_cls : Schema) (pk_field_name : String := "id")
    (name : String := "Create") : CreatedSchema :=
  let fields : List (String × FieldSpec) :=
    match schema_cls.model_fields with
    | some mf => create_fields pk_field_name mf
    | none =>
        match schema_cls.legacy_fields with
        | some lf => create_fields pk_field_name lf
        | none => []
  { name := schema_cls.name ++ name, fields := fields }

/-- The field set of a schema descriptor, as _utils.py reads it: the
v2 field-metadata mapping when present, else the v1 field mapping when
present, else empty. -/
def Schema.declared_fields (s : Schema) : List (String × PyType) :=
  match s.model_fields with
  | some mf => mf
  | none => s.legacy_fields.getD []

/-- A JSON-like value, for the detail payload of an HTTP exception. -/
inductive Json where
  | str (s : String)
  | num (n : Int)
  | arr (xs : List Json)
  | obj (members : List (String × Json))

/-- Lookup of a member in a JSON object. -/
def jlookup (j : Json) (k : String) : Option Json :=
  match j with
  | Json.obj members => dict_lookup k members
  | _ => none

/-- The HTTPException raised by the shim: a numeric status code and a
detail payload. -/
structure HTTPException where
  status_code : Int
  detail : Json

/-- create_query_validation_exception from _utils.py: an HTTPException
with status 422 whose detail is an object holding, under the key
detail, a one-element list with the loc, msg and type record; the type
tag is hard-coded to the integer type-error tag. -/
def create_query_validation_exception (field : String) (msg : String) :
    HTTPException :=
  { status_code := 422
    detail := Json.obj
      [("detail", Json.arr
        [Json.obj
          [("loc", Json.arr [Json.str "query", Json.str field]),
           ("msg", Json.str msg),
           ("type", Json.str "type_error.integer")]])] }

/-- The dict returned by a successful pagination call: keys skip and
limit. -/
structure PAGINATION where
  skip : Int
  limit : Option Int
deriving DecidableEq

/-- Python truthiness of an optional integer: None and 0 are falsy,
every other integer is truthy. -/
def int_opt_truthy : Option Int → Bool
  | none => false
  | some n => n != 0

/-- The inner function pagination of pagination_factory in _utils.py.
Raising is modelled by the Except error constructor.  The guard on the
over-maximum branch is the Python conjunction of the truthiness of
max_limit with the comparison, exactly as written in the source. -/
def pagination (max_limit : Option Int) (skip : Int := 0)
    (limit : Option Int := max_limit) : Except HTTPException PAGINATION :=
  if skip < 0 then
    Except.error (create_query_validation_exception "skip"
      "skip query parameter must be greater or equal to zero")
  else
    match limit with
    | some l =>
        if l ≤ 0 then
          Except.error (create_query_validation_exception "limit"
            "limit query parameter must be greater then zero")
        else if int_opt_truthy max_limit ∧ max_limit.getD 0 < l then
          Except.error (create_query_validation_exception "limit"
            ("limit query parameter must be less then "
              ++ toString (max_limit.getD 0)))
        else
          Except.ok { skip := skip, limit := some l }
    | none => Except.ok { skip := skip, limit := none }

/-- pagination_factory from _utils.py returns the pagination closure for
the configured maximum (the Depends wrapper is transparent here). -/
def pagination_factory (max_limit : Option Int := none) :
    Int → Option Int → Except HTTPException PAGINATION :=
  fun skip limit => pagination max_limit skip limit

/-- C5: for every parameter name and message,
create_query_validation_exception returns an error object with HTTP
status 422 whose detail payload carries, under the detail key, a
one-element list containing a record with location query-field, the
given message, and the kind tag type_error.integer, regardless of the
actual validation failure reason. -/
theorem create_query_validation_exception_shape (field msg : String) :
    (create_query_validation_exception field msg).status_code = 422 ∧
    jlookup (create_query_validation_exception field msg).detail "detail" =
      some (Json.arr
        [Json.obj
          [("loc", Json.arr [Json.str "query", Json.str field]),
           ("msg", Json.str msg),
           ("type", Json.str "type_error.integer")]]) := by
  constructor
  · rfl
  · rfl

/-- C6: for every configured maximum and every limit value, if skip is
negative the pagination validator fails with the query-validation error
naming skip with the literal non-negativity message; since this holds
for every limit (including invalid ones), the skip check comes before
any limit check. -/
theorem pagination_negative_skip (max_limit : Option Int) (skip : Int)
    (limit : Option Int) (h : skip < 0) :
    pagination max_limit skip limit =
      Except.error (create_query_validation_exception "skip"
        "skip query parameter must be greater or equal to zero") := by
  simp [pagination, h]

/-- Witness for C6 at the concrete input skip = -1 with a limit that
would itself be invalid (0) and maximum 10: the skip error wins. -/
theorem pagination_negative_skip_witness :
    pagination (some 10) (-1) (some 0) =
      Except.error (create_query_validation_exception "skip"
        "skip query parameter must be greater or equal to zero") :=
  pagination_negative_skip (some 10) (-1) (some 0) (by norm_num)

/-- C7: for every configured maximum and every skip greater or equal to
zero, if limit is provided and nonpositive, the pagination validator
fails with the query-validation error naming limit with the literal
message about being greater then zero. -/
theorem pagination_nonpositive_limit (max_limit : Option Int)
    (skip l : Int) (hskip : 0 ≤ skip) (hl : l ≤ 0) :
    pagination max_limit skip (some l) =
      Except.error (create_query_validation_exception "limit"
        "limit query parameter must be greater then zero") := by
  have h1 : ¬ skip < 0 := not_lt.mpr hskip
  simp [pagination, h1, hl]

/-- Witness for C7 at skip = 0, limit = 0, no maximum. -/
theorem pagination_nonpositive_limit_witness :
    pagination none 0 (some 0) =
      Except.error (create_query_validation_exception "limit"
        "limit query parameter must be greater then zero") :=
  pagination_nonpositive_limit none 0 0 le_rfl le_rfl

/-- C4 counterexample: the claim quantifies over every configured
maximum, but with the configured maximum 0, skip 0 and limit 1 (which
is positive and greater than the maximum), pagination succeeds instead
of failing with a limit error, because the source guards the
over-maximum branch by the Python truthiness of max_limit. -/
theorem pagination_over_max_counterexample :
    pagination (some 0) 0 (some 1) =
      Except.ok { skip := 0, limit := some 1 } := rfl

/-- C4 amended: for every configured nonzero maximum and every skip
greater or equal to zero, limit provided, positive and greater than the
maximum, the pagination validator fails with a query-validation error
naming limit whose message interpolates the configured maximum. -/
theorem pagination_over_max (m skip l : Int) (hskip : 0 ≤ skip)
    (hm : m ≠ 0) (hl : 0 < l) (hlt : m < l) :
    pagination (some m) skip (some l) =
      Except.error (create_query_validation_exception "limit"
        ("limit query parameter must be less then " ++ toString m)) := by
  have h1 : ¬ skip < 0 := not_lt.mpr hskip
  have h2 : ¬ l ≤ 0 := not_le.mpr hl
  simp [pagination, int_opt_truthy, h1, h2, hm, hlt]

/-- Witness for the amended C4 at maximum 10, skip 0, limit 50 (the
example of the spec). -/
theorem pagination_over_max_witness :
    pagination (some 10) 0 (some 50) =
      Except.error (create_query_validation_exception "limit"
        ("limit query parameter must be less then " ++ toString (10 : Int))) :=
  pagination_over_max 10 0 50 (by norm_num) (by norm_num) (by norm_num)
    (by norm_num)

/-- C8: for every skip greater or equal to zero and every limit that is
either absent or positive and within the configured maximum when one is
configured, the pagination validator succeeds and returns the mapping
with both values unchanged. -/
theorem pagination_success (max_limit : Option Int) (skip : Int)
    (limit : Option Int) (hskip : 0 ≤ skip)
    (hlim : limit = none ∨
      ∃ l, limit = some l ∧ 0 < l ∧
        (max_limit = none ∨ ∃ m, max_limit = some m ∧ l ≤ m)) :
    pagination max_limit skip limit =
      Except.ok { skip := skip, limit := limit } := by
  have h1 : ¬ skip < 0 := not_lt.mpr hskip
  rcases hlim with hnone | ⟨l, hsome, hl, hmax⟩
  · subst hnone
    simp [pagination, h1]
  · subst hsome
    have h2 : ¬ l ≤ 0 := not_le.mpr hl
    rcases hmax with hmn | ⟨m, hms, hle⟩
    · subst hmn
      simp [pagination, int_opt_truthy, h1, h2]
    · subst hms
      have h3 : ¬ m < l := not_lt.mpr hle
      simp [pagination, int_opt_truthy, h1, h2, h3]

/-- Witness for C8 at skip = 5, limit = 10, maximum 10 (the example of
the spec). -/
theorem pagination_success_witness :
    pagination (some 10) 5 (some 10) =
      Except.ok { skip := 5, limit := some 10 } :=
  pagination_success (some 10) 5 (some 10) (by norm_num)
    (Or.inr ⟨10, rfl, by norm_num, Or.inr ⟨10, rfl, le_rfl⟩⟩)

/-- C10: when the pagination dependency is configured with a maximum
limit of exactly 0, the over-maximum check is never applied: for every
skip greater or equal to zero and every provided positive limit, the
validator succeeds with both values unchanged, because the guard treats
a configured maximum of 0 as no maximum (Python falsiness of 0). -/
theorem pagination_zero_max (skip l : Int) (hskip : 0 ≤ skip)
    (hl : 0 < l) :
    pagination (some 0) skip (some l) =
      Except.ok { skip := skip, limit := some l } := by
  have h1 : ¬ skip < 0 := not_lt.mpr hskip
  have h2 : ¬ l ≤ 0 := not_le.mpr hl
  simp [pagination, int_opt_truthy, h1, h2]

/-- Witness for C10 at skip = 0, limit = 100 with configured maximum 0:
the limit passes although it exceeds the maximum. -/
theorem pagination_zero_max_witness :
    pagination (some 0) 0 (some 100) =
      Except.ok { skip := 0, limit := some 100 } :=
  pagination_zero_max 0 100 (by norm_num) (by norm_num)

/-- Key lookup over the comprehension of schema_factory: dropping the
primary-key entries and wrapping each kept annotation into a required
field specification. -/
theorem dict_lookup_create_fields (l : List (String × PyType))
    (pk fname : String) :
    dict_lookup fname (create_fields pk l) =
      if fname = pk then none
      else (dict_lookup fname l).map
        (fun t => ({ ann := t, required := true } : FieldSpec)) := by
  induction l with
  | nil =>
      simp [create_fields, dict_lookup]
  | cons hd tl ih =>
      obtain ⟨k, v⟩ := hd
      by_cases hk : k = pk
      · by_cases hf : fname = k
        · subst hf
          subst hk
          simp [create_fields, dict_lookup, ih]
        · subst hk
          simp [create_fields, dict_lookup, hf, ih]
      · by_cases hf : fname = k
        · subst hf
          simp [create_fields, dict_lookup, hk]
        · simp [create_fields, dict_lookup, hk, hf, ih]

/-- C1: for every schema descriptor, primary-key field name and suffix,
the schema produced by schema_factory has a field set equal to the
original descriptor's field set minus the primary-key field name: a
name resolves in the produced schema exactly when it differs from the
primary key and resolves in the descriptor, and it then keeps its
annotation type and is required (no default value). -/
theorem schema_factory_field_set (s : Schema) (pk suffix fname : String) :
    dict_lookup fname (schema_factory s pk suffix).fields =
      if fname = pk then none
      else (dict_lookup fname s.declared_fields).map
        (fun t => ({ ann := t, required := true } : FieldSpec)) := by
  cases hmf : s.model_fields with
  | some mf =>
      simp [schema_factory, Schema.declared_fields, hmf,
        dict_lookup_create_fields]
  | none =>
      cases hlf : s.legacy_fields with
      | some lf =>
          simp [schema_factory, Schema.declared_fields, hmf, hlf,
            dict_lookup_create_fields]
      | none =>
          simp [schema_factory, Schema.declared_fields, hmf, hlf,
            dict_lookup]

/-- C9: for every input schema descriptor, primary-key field name and
suffix, the schema produced by schema_factory is named by concatenating
the original descriptor's name with the suffix, and with the default
suffix the name ends in Create. -/
theorem schema_factory_name (s : Schema) (pk suffix : String) :
    (schema_factory s pk suffix).name = s.name ++ suffix ∧
    (schema_factory s pk).name = s.name ++ "Create" := by
  constructor
  · rfl
  · rfl

/-- C2: for every schema descriptor that exposes a field-metadata
mapping containing the named primary-key field, get_pk_type returns
exactly that field's declared annotation type. -/
theorem get_pk_type_model_fields (s : Schema) (pk : String)
    (mf : List (String × PyType)) (t : PyType)
    (h1 : s.model_fields = some mf) (h2 : dict_lookup pk mf = some t) :
    get_pk_type s pk = t := by
  have hne : mf ≠ [] := by
    intro hnil
    subst hnil
    simp [dict_lookup] at h2
  simp [get_pk_type, h1, h2, hne]

/-- Witness for C2: a descriptor whose metadata mapping declares the
primary key as a string resolves to the string type. -/
theorem get_pk_type_model_fields_witness :
    get_pk_type
      { name := "Potato",
        model_fields := some [("id", PyType.str), ("thickness", PyType.float)],
        legacy_fields := none,
        type_hints := [("id", PyType.int), ("thickness", PyType.float)] }
      "id" = PyType.str :=
  get_pk_type_model_fields _ "id"
    [("id", PyType.str), ("thickness", PyType.float)] PyType.str rfl
    (by simp [dict_lookup])

/-- C3: for every schema descriptor in which the named field is absent
both from the field-metadata mapping and from general type
introspection, get_pk_type returns the integer type; the function is
total, so no error is ever raised. -/
theorem get_pk_type_default (s : Schema) (pk : String)
    (h1 : dict_lookup pk (s.model_fields.getD []) = none)
    (h2 : dict_lookup pk s.type_hints = none) :
    get_pk_type s pk = PyType.int := by
  simp [get_pk_type, h1, h2]

/-- Witness for C3: a descriptor whose metadata and type hints know
only another field falls back to the integer type for the primary key. -/
theorem get_pk_type_default_witness :
    get_pk_type
      { name := "Potato",
        model_fields := some [("thickness", PyType.float)],
        legacy_fields := none,
        type_hints := [("thickness", PyType.float)] }
      "id" = PyType.int :=
  get_pk_type_default _ "id" (by simp [dict_lookup]) (by simp [dict_lookup])
